import Mathlib

set_option autoImplicit false

namespace NFLMatchup

/-- One play-by-play record of the Play Sample Store: season, week, offensive
team (`posteam`), defensive team (`defteam`), expected points added (`epa`,
embedded as an exact rational) and the game identifier. -/
structure Play where
  season : Int
  week : Int
  posteam : String
  defteam : String
  epa : Rat
  game_id : String
  deriving DecidableEq, Repr

/-- Mean of a pandas numeric series, `series.mean()`: sum divided by length.
The code only calls it on non-empty selections (it guards with `len > 0`). -/
def seriesMean (l : List Rat) : Rat := l.sum / l.length

/-- The involvement predicate `(posteam == team) | (defteam == team)`. -/
def involvesTeam (team : String) (p : Play) : Bool :=
  p.posteam == team || p.defteam == team

/-- The row filter of `get_team_recent_stats`:
`(season == year) & (week < week) & ((posteam == team) | (defteam == team))`. -/
def current_season_games (team : String) (week year : Int) (pbp : List Play) : List Play :=
  pbp.filter (fun p => p.season == year && decide (p.week < week) && involvesTeam team p)

/-- `games[games['posteam'] == team]`. -/
def team_off_plays (team : String) (games : List Play) : List Play :=
  games.filter (fun p => p.posteam == team)

/-- `games[games['defteam'] == team]`. -/
def team_def_plays (team : String) (games : List Play) : List Play :=
  games.filter (fun p => p.defteam == team)

/-- The guarded mean the code uses everywhere:
`plays['epa'].mean() if len(plays) > 0 else 0`. -/
def guarded_epa_mean (plays : List Play) : Rat :=
  if plays.length > 0 then seriesMean (plays.map (·.epa)) else 0

/-- `len(games.groupby(['game_id']))`: the number of distinct game ids. -/
def distinct_game_count (games : List Play) : Nat :=
  (games.map (·.game_id)).dedup.length

/-- The trend part of a snapshot: either the keys were never added
(`include_trends` off or the year is not 2025), or `has_trends = False`
(empty historical sample), or the four trend values with `has_trends = True`
(`historical_offense`, `historical_defense`, `offense_trend`, `defense_trend`). -/
inductive TrendInfo where
  | notRequested
  | unavailable
  | available (historical_offense historical_defense offense_trend defense_trend : Rat)
  deriving DecidableEq, Repr

/-- The snapshot dict built by `get_team_recent_stats`. -/
structure TeamStats where
  games_played : Nat
  epa_offense : Rat
  epa_defense : Rat
  epa_defense_raw : Rat
  total_plays : Nat
  trends : TrendInfo
  deriving DecidableEq, Repr

/-- The `base_stats` dict of `get_team_recent_stats`, computed from the
already-filtered `current_season_games` rows. -/
def base_stats (team : String) (games : List Play) : TeamStats :=
  let current_off_plays := team_off_plays team games
  let current_avg_epa_off := guarded_epa_mean current_off_plays
  let current_def_plays := team_def_plays team games
  let current_avg_epa_def := guarded_epa_mean current_def_plays
  { games_played := distinct_game_count games
    epa_offense := current_avg_epa_off
    epa_defense := -current_avg_epa_def
    epa_defense_raw := current_avg_epa_def
    total_plays := current_off_plays.length + current_def_plays.length
    trends := TrendInfo.notRequested }

/-- `season.isin([2022, 2023, 2024])`. -/
def histSeason (p : Play) : Bool :=
  p.season == 2022 || p.season == 2023 || p.season == 2024

/-- The historical-baseline filter of `get_team_recent_stats`:
`season.isin([2022, 2023, 2024]) & ((posteam == team) | (defteam == team))`
(no week bound). -/
def historical_games (team : String) (pbp : List Play) : List Play :=
  pbp.filter (fun p => histSeason p && involvesTeam team p)

/-- `get_team_recent_stats(team_abbr, week, year, pbp_data, include_trends)`:
returns `none` when the filtered current-season window is empty, otherwise the
base stats, extended with trend fields when `include_trends` holds and the
year is 2025 (with `has_trends = False` if the historical sample is empty). -/
def get_team_recent_stats (team_abbr : String) (week year : Int) (pbp_data : List Play)
    (include_trends : Bool) : Option TeamStats :=
  let games := current_season_games team_abbr week year pbp_data
  if games.length == 0 then
    none
  else
    let base := base_stats team_abbr games
    if !include_trends || year != 2025 then
      some base
    else
      let hist := historical_games team_abbr pbp_data
      if hist.length > 0 then
        let hist_avg_epa_off := guarded_epa_mean (team_off_plays team_abbr hist)
        let hist_avg_epa_def := guarded_epa_mean (team_def_plays team_abbr hist)
        some { base with trends := (TrendInfo.available hist_avg_epa_off (-hist_avg_epa_def)
          (base.epa_offense - hist_avg_epa_off)
          ((-base.epa_defense_raw) - (-hist_avg_epa_def))) }
      else
        some { base with trends := TrendInfo.unavailable }

/-- The caller-level team validation set:
`set(pbp['posteam'].dropna().unique()) | set(pbp['defteam'].dropna().unique())`. -/
def available_teams (pbp_data : List Play) : List String :=
  ((pbp_data.map (·.posteam)) ++ (pbp_data.map (·.defteam))).dedup

/-- The trend part of a Power Rankings entry: the dict carries
`has_trends = False`, or `offense_trend`/`defense_trend` with
`has_trends = True`. -/
inductive RankTrendInfo where
  | noTrends
  | withTrends (offense_trend defense_trend : Rat)
  deriving DecidableEq, Repr

/-- The per-team dict built inside `get_all_team_stats`. -/
structure TeamRankStats where
  team : String
  games_played : Nat
  epa_offense : Rat
  epa_defense_raw : Rat
  epa_defense_display : Rat
  total_plays : Nat
  net_epa : Rat
  trends : RankTrendInfo
  deriving DecidableEq, Repr

/-- The team universe of `get_all_team_stats`: all posteam/defteam values,
dropping the empty code. -/
def all_teams (pbp_data : List Play) : List String :=
  (available_teams pbp_data).filter (fun t => t != "")

/-- One iteration of the `for team in all_teams` loop of `get_all_team_stats`:
`none` models the `continue` on an empty current-season window. -/
def get_all_team_stats_entry (pbp_data : List Play) (team : String)
    (current_year current_week : Int) (include_trends : Bool) : Option TeamRankStats :=
  let games := current_season_games team current_week current_year pbp_data
  if games.length == 0 then
    none
  else
    let current_off_plays := team_off_plays team games
    let current_avg_epa_off := guarded_epa_mean current_off_plays
    let current_def_plays := team_def_plays team games
    let current_avg_epa_def := guarded_epa_mean current_def_plays
    let stats : TeamRankStats :=
      { team := team
        games_played := distinct_game_count games
        epa_offense := current_avg_epa_off
        epa_defense_raw := current_avg_epa_def
        epa_defense_display := -current_avg_epa_def
        total_plays := current_off_plays.length + current_def_plays.length
        net_epa := current_avg_epa_off - current_avg_epa_def
        trends := RankTrendInfo.noTrends }
    if include_trends && current_year == 2025 then
      let hist := historical_games team pbp_data
      if hist.length > 0 then
        let hist_avg_epa_off := guarded_epa_mean (team_off_plays team hist)
        let hist_avg_epa_def := guarded_epa_mean (team_def_plays team hist)
        some { stats with trends := (RankTrendInfo.withTrends
          (current_avg_epa_off - hist_avg_epa_off)
          ((-current_avg_epa_def) - (-hist_avg_epa_def))) }
      else
        some stats
    else
      some stats

/-- `get_all_team_stats(pbp_data, current_year, current_week, include_trends)`:
the association `team -> stats` accumulated by the loop. -/
def get_all_team_stats (pbp_data : List Play) (current_year current_week : Int)
    (include_trends : Bool) : List (String × TeamRankStats) :=
  (all_teams pbp_data).filterMap (fun t =>
    (get_all_team_stats_entry pbp_data t current_year current_week include_trends).map
      (fun s => (t, s)))

/-- Python `int(q)` on a nonnegative-or-negative rational: truncation toward
zero. -/
def pythonInt (q : Rat) : Int :=
  if q < 0 then -⌊-q⌋ else ⌊q⌋

/-- Python `round(q)`: round half to even (banker's rounding). Used only to
state the specification's `round` formula. -/
def pythonRound (q : Rat) : Int :=
  if q - ⌊q⌋ < 1 / 2 then ⌊q⌋
  else if q - ⌊q⌋ > 1 / 2 then ⌊q⌋ + 1
  else if ⌊q⌋ % 2 == 0 then ⌊q⌋ else ⌊q⌋ + 1

/-- `df.sample(n=n, random_state=rs)`: a deterministic sample drawn without
replacement. `rs = some seed` models an explicit `random_state=seed`;
`rs = none` models an unseeded call, which falls back to the ambient RNG
state `rng`. The draw is modelled as a seed-determined rotation of the rows
followed by taking the first `n`: deterministic in `(seed, rows, n)`, without
replacement, of size `min n rows.length`. -/
def pandasSample (rng : Nat) (rs : Option Nat) (l : List Play) (n : Nat) : List Play :=
  let seed := rs.getD rng
  let k := seed % (l.length + 1)
  ((l.drop k) ++ (l.take k)).take n

/-- `pbp[pbp['season'] == 2025]`. -/
def current_subset (pbp_data : List Play) : List Play :=
  pbp_data.filter (fun p => p.season == 2025)

/-- `pbp[pbp['season'].isin([2022, 2023, 2024])]`. -/
def historical_subset (pbp_data : List Play) : List Play :=
  pbp_data.filter histSeason

/-- `create_blended_model_data(pbp_data, current_season_weight)`. `rng` is the
ambient RNG state an unseeded pandas call would fall back to; the code always
passes `random_state=42`, so `rng` is never consulted. -/
def create_blended_model_data (rng : Nat) (pbp_data : List Play)
    (current_season_weight : Rat) : List Play :=
  let historical_data := historical_subset pbp_data
  let current_data := current_subset pbp_data
  if current_data.length == 0 then historical_data
  else if historical_data.length == 0 then current_data
  else if current_season_weight == 0 then historical_data
  else if current_season_weight == 1 then current_data
  else
    let target_total_size := historical_data.length
    let target_current_plays := (pythonInt ((target_total_size : Rat) * current_season_weight)).toNat
    let target_historical_plays := (pythonInt ((target_total_size : Rat) * (1 - current_season_weight))).toNat
    let current_sample :=
      if target_current_plays > current_data.length then
        let replication_factor := target_current_plays / current_data.length
        let remainder := target_current_plays % current_data.length
        let current_replicated := (List.replicate replication_factor current_data).flatten
        if remainder > 0 then
          current_replicated ++ pandasSample rng (some 42) current_data remainder
        else
          current_replicated
      else
        pandasSample rng (some 42) current_data target_current_plays
    let historical_sample :=
      if target_historical_plays > historical_data.length then
        historical_data
      else
        pandasSample rng (some 42) historical_data target_historical_plays
    historical_sample ++ current_sample

/-- Recommendation tiers of the edge evaluator. -/
inductive EdgeTier where
  | STRONG
  | MODERATE
  | NONE
  deriving DecidableEq, Repr

/-- `simple_edge = home_spread_vegas - simple_model_spread`. -/
def simple_edge (home_spread_vegas simple_model_spread : Rat) : Rat :=
  home_spread_vegas - simple_model_spread

/-- `simple_pick = home_abbr if simple_edge > 0 else away_abbr`. -/
def simple_pick (home_abbr away_abbr : String) (edge : Rat) : String :=
  if edge > 0 then home_abbr else away_abbr

/-- The spread recommendation tier: `abs(simple_edge) >= 2` splits into
STRONG at `abs >= 4`, else MODERATE; below 2, no recommendation is shown. -/
def spread_rec_tier (edge : Rat) : EdgeTier :=
  if |edge| ≥ 2 then
    if |edge| ≥ 4 then EdgeTier.STRONG else EdgeTier.MODERATE
  else EdgeTier.NONE

/-- `total_edge = simple_model_total - total_line`. -/
def totals_edge (simple_model_total total_line : Rat) : Rat :=
  simple_model_total - total_line

/-- `total_pick = "OVER" if total_edge > 0 else "UNDER"`. -/
def totals_pick (edge : Rat) : String :=
  if edge > 0 then "OVER" else "UNDER"

/-- The total recommendation tier: same breakpoints as the spread one
(`abs(total_edge) >= 2`, STRONG at `abs >= 4`). -/
def total_rec_tier (edge : Rat) : EdgeTier :=
  if |edge| ≥ 2 then
    if |edge| ≥ 4 then EdgeTier.STRONG else EdgeTier.MODERATE
  else EdgeTier.NONE

/-- Specification-side arithmetic mean: mean of a list of values, `0` for the
empty list. -/
def arithMean (l : List Rat) : Rat :=
  if l.isEmpty then 0 else l.sum / l.length

/-- The claim's filtered window: `season == query season` and
`week < query week`, with no involvement clause. -/
def seasonWindow (week year : Int) (pbp : List Play) : List Play :=
  pbp.filter (fun p => p.season == year && decide (p.week < week))

/-- The claim's tier table: STRONG at `|edge| >= 4`, MODERATE at
`2 <= |edge| < 4`, NONE otherwise. -/
def claimTier (edge : Rat) : EdgeTier :=
  if |edge| ≥ 4 then EdgeTier.STRONG
  else if |edge| ≥ 2 then EdgeTier.MODERATE
  else EdgeTier.NONE

/-- A small concrete play table used by witnesses: KC plays in weeks 1 and 2
of 2025, a 2024 historical row, a week-5 row outside a week-3 window, and a
row not involving KC at all. -/
def demoTable : List Play :=
  [ ⟨2025, 1, "KC", "DEN", 1/2, "g1"⟩,
    ⟨2025, 1, "DEN", "KC", -(1/4), "g1"⟩,
    ⟨2025, 2, "KC", "LV", 1/4, "g2"⟩,
    ⟨2024, 1, "KC", "LV", 7, "old1"⟩,
    ⟨2025, 5, "KC", "LV", 9, "fut1"⟩,
    ⟨2025, 1, "DAL", "NYG", 1, "g3"⟩ ]

/-- The snapshot `get_team_recent_stats "KC" 3 2025 demoTable false`
produces. -/
def demoStats : TeamStats :=
  { games_played := 2, epa_offense := 3/8, epa_defense := 1/4,
    epa_defense_raw := -(1/4), total_plays := 3, trends := TrendInfo.notRequested }

/-- Same snapshot with trends requested: the 2024 row gives the historical
baseline (offense mean 7, no defensive rows). -/
def demoStatsT : TeamStats :=
  { games_played := 2, epa_offense := 3/8, epa_defense := 1/4,
    epa_defense_raw := -(1/4), total_plays := 3,
    trends := TrendInfo.available 7 0 (-(53/8)) (1/4) }

/-- The Power Rankings entry for "KC" on `demoTable` at (2025, week 3) with
trends on. -/
def demoRankKC : TeamRankStats :=
  { team := "KC", games_played := 2, epa_offense := 3/8,
    epa_defense_raw := -(1/4), epa_defense_display := 1/4, total_plays := 3,
    net_epa := 5/8, trends := RankTrendInfo.withTrends (-(53/8)) (1/4) }

/-- A table where "AA" appears only at week 5 (so a week-3 query has zero
games) and "ZZ" appears nowhere. -/
def c3Table : List Play :=
  [ ⟨2025, 5, "AA", "BB", 1, "g9"⟩,
    ⟨2025, 1, "CC", "DD", 2, "g8"⟩ ]

/-- Three historical rows and one current row: `|historical| = 3`,
`|current| = 1`, so at weight 1/2 Python's `round(1.5) = 2` and
`int(1.5) = 1` disagree. -/
def c5Table : List Play :=
  [ ⟨2022, 1, "AA", "BB", 1, "h1"⟩,
    ⟨2022, 2, "AA", "BB", 2, "h2"⟩,
    ⟨2023, 1, "AA", "BB", 3, "h3"⟩,
    ⟨2025, 1, "AA", "BB", 4, "c1"⟩ ]

/-- Six historical rows and one current row: at weight 2/3 the target of 4
current rows exceeds the single available one, forcing up-sampling. -/
def c5UpTable : List Play :=
  [ ⟨2022, 1, "AA", "BB", 1, "h1"⟩,
    ⟨2022, 2, "AA", "BB", 1, "h2"⟩,
    ⟨2022, 3, "AA", "BB", 1, "h3"⟩,
    ⟨2023, 1, "AA", "BB", 1, "h4"⟩,
    ⟨2023, 2, "AA", "BB", 1, "h5"⟩,
    ⟨2024, 1, "AA", "BB", 1, "h6"⟩,
    ⟨2025, 1, "AA", "BB", 4, "c1"⟩ ]

/-- Four historical rows and two current rows. -/
def c10Table : List Play :=
  [ ⟨2022, 1, "AA", "BB", 1, "h1"⟩,
    ⟨2022, 2, "AA", "BB", 2, "h2"⟩,
    ⟨2023, 1, "AA", "BB", 3, "h3"⟩,
    ⟨2024, 1, "AA", "BB", 5, "h4"⟩,
    ⟨2025, 1, "AA", "BB", 4, "c1"⟩,
    ⟨2025, 2, "BB", "AA", 6, "c2"⟩ ]

/-- A table with only historical rows. -/
def historyOnlyTable : List Play := [⟨2022, 1, "AA", "BB", 1, "h1"⟩]

/-- A table with only current-season rows. -/
def currentOnlyTable : List Play := [⟨2025, 1, "AA", "BB", 1, "c1"⟩]

lemma guarded_epa_mean_eq_arithMean (l : List Play) :
    guarded_epa_mean l = arithMean (l.map (·.epa)) := by
  cases l with
  | nil => simp [guarded_epa_mean, arithMean]
  | cons a t => simp [guarded_epa_mean, arithMean, seriesMean]

lemma team_off_plays_window (team : String) (week year : Int) (pbp : List Play) :
    team_off_plays team (current_season_games team week year pbp)
      = (seasonWindow week year pbp).filter (fun p => p.posteam == team) := by
  unfold team_off_plays current_season_games seasonWindow
  rw [List.filter_filter, List.filter_filter]
  apply List.filter_congr
  intro x _
  simp only [involvesTeam]
  cases x.posteam == team <;> cases x.defteam == team <;>
    cases x.season == year <;> cases decide (x.week < week) <;> rfl

lemma team_def_plays_window (team : String) (week year : Int) (pbp : List Play) :
    team_def_plays team (current_season_games team week year pbp)
      = (seasonWindow week year pbp).filter (fun p => p.defteam == team) := by
  unfold team_def_plays current_season_games seasonWindow
  rw [List.filter_filter, List.filter_filter]
  apply List.filter_congr
  intro x _
  simp only [involvesTeam]
  cases x.posteam == team <;> cases x.defteam == team <;>
    cases x.season == year <;> cases decide (x.week < week) <;> rfl

lemma team_off_plays_historical (team : String) (pbp : List Play) :
    team_off_plays team (historical_games team pbp)
      = (historical_subset pbp).filter (fun p => p.posteam == team) := by
  unfold team_off_plays historical_games historical_subset
  rw [List.filter_filter, List.filter_filter]
  apply List.filter_congr
  intro x _
  simp only [involvesTeam]
  cases x.posteam == team <;> cases x.defteam == team <;>
    cases histSeason x <;> rfl

lemma team_def_plays_historical (team : String) (pbp : List Play) :
    team_def_plays team (historical_games team pbp)
      = (historical_subset pbp).filter (fun p => p.defteam == team) := by
  unfold team_def_plays historical_games historical_subset
  rw [List.filter_filter, List.filter_filter]
  apply List.filter_congr
  intro x _
  simp only [involvesTeam]
  cases x.posteam == team <;> cases x.defteam == team <;>
    cases histSeason x <;> rfl

lemma current_season_games_filter_involves (team : String) (week year : Int) (pbp : List Play) :
    current_season_games team week year (pbp.filter (involvesTeam team))
      = current_season_games team week year pbp := by
  unfold current_season_games
  rw [List.filter_filter]
  apply List.filter_congr
  intro x _
  simp only [involvesTeam]
  cases x.posteam == team <;> cases x.defteam == team <;>
    cases x.season == year <;> cases decide (x.week < week) <;> rfl

lemma historical_games_filter_involves (team : String) (pbp : List Play) :
    historical_games team (pbp.filter (involvesTeam team))
      = historical_games team pbp := by
  unfold historical_games
  rw [List.filter_filter]
  apply List.filter_congr
  intro x _
  simp only [involvesTeam]
  cases x.posteam == team <;> cases x.defteam == team <;>
    cases histSeason x <;> rfl

lemma get_team_recent_stats_filter_involves (team : String) (week year : Int)
    (pbp : List Play) (include_trends : Bool) :
    get_team_recent_stats team week year (pbp.filter (involvesTeam team)) include_trends
      = get_team_recent_stats team week year pbp include_trends := by
  simp only [get_team_recent_stats, current_season_games_filter_involves,
    historical_games_filter_involves]

lemma get_team_recent_stats_eq_none_iff (team : String) (week year : Int)
    (pbp : List Play) (include_trends : Bool) :
    get_team_recent_stats team week year pbp include_trends = none
      ↔ current_season_games team week year pbp = [] := by
  constructor
  · intro h
    by_contra he
    simp only [get_team_recent_stats] at h
    split at h
    · rename_i hc
      exact he (List.length_eq_zero.mp (by simpa using hc))
    · split at h
      · exact Option.noConfusion h
      · split at h
        · exact Option.noConfusion h
        · exact Option.noConfusion h
  · intro he
    simp [get_team_recent_stats, he]

lemma get_team_recent_stats_base_fields (team : String) (week year : Int)
    (pbp : List Play) (include_trends : Bool) (s : TeamStats)
    (h : get_team_recent_stats team week year pbp include_trends = some s) :
    s.epa_offense = guarded_epa_mean (team_off_plays team (current_season_games team week year pbp))
  ∧ s.epa_defense_raw = guarded_epa_mean (team_def_plays team (current_season_games team week year pbp))
  ∧ s.epa_defense = -guarded_epa_mean (team_def_plays team (current_season_games team week year pbp)) := by
  simp only [get_team_recent_stats] at h
  split at h
  · exact absurd h (by simp)
  · split at h
    · injection h with h
      subst h
      exact ⟨rfl, rfl, rfl⟩
    · split at h
      · injection h with h
        subst h
        exact ⟨rfl, rfl, rfl⟩
      · injection h with h
        subst h
        exact ⟨rfl, rfl, rfl⟩

lemma get_all_team_stats_entry_fields (pbp : List Play) (team : String)
    (year week : Int) (include_trends : Bool) (s : TeamRankStats)
    (h : get_all_team_stats_entry pbp team year week include_trends = some s) :
    s.net_epa = s.epa_offense - s.epa_defense_raw
  ∧ s.epa_defense_display = -s.epa_defense_raw := by
  simp only [get_all_team_stats_entry] at h
  split at h
  · exact Option.noConfusion h
  · split at h
    · split at h
      · injection h with h
        subst h
        exact ⟨rfl, rfl⟩
      · injection h with h
        subst h
        exact ⟨rfl, rfl⟩
    · injection h with h
      subst h
      exact ⟨rfl, rfl⟩

/-- Claim C1: when `get_team_recent_stats` returns a non-null snapshot, its
`epa_offense` is the arithmetic mean of `epa` over exactly the season/week
window rows whose offense team is the queried team (0 when that subset is
empty), `epa_defense_raw` is the analogous defensive mean, and the result
depends only on the rows involving the team (locality). -/
theorem aggregator_offense_defense_mean_locality (team : String) (week year : Int)
    (pbp : List Play) (include_trends : Bool) (s : TeamStats)
    (h : get_team_recent_stats team week year pbp include_trends = some s) :
    s.epa_offense
      = arithMean (((seasonWindow week year pbp).filter (fun p => p.posteam == team)).map (·.epa))
  ∧ s.epa_defense_raw
      = arithMean (((seasonWindow week year pbp).filter (fun p => p.defteam == team)).map (·.epa))
  ∧ ∀ pbp2 : List Play,
      pbp.filter (involvesTeam team) = pbp2.filter (involvesTeam team) →
      get_team_recent_stats team week year pbp2 include_trends = some s := by
  obtain ⟨ho, hd, _⟩ := get_team_recent_stats_base_fields team week year pbp include_trends s h
  refine ⟨?_, ?_, ?_⟩
  · rw [ho, team_off_plays_window, guarded_epa_mean_eq_arithMean]
  · rw [hd, team_def_plays_window, guarded_epa_mean_eq_arithMean]
  · intro pbp2 heq
    rw [← get_team_recent_stats_filter_involves team week year pbp2, ← heq,
      get_team_recent_stats_filter_involves]
    exact h

/-- Claim C2: `get_team_recent_stats` returns null exactly when the filter
`season == year AND week < max_week AND (offense==team OR defense==team)`
selects no rows; in particular a team present only in weeks at or after the
query week gets the null return. -/
theorem aggregator_null_iff_empty_filter :
    (∀ (team : String) (week year : Int) (pbp : List Play) (include_trends : Bool),
        get_team_recent_stats team week year pbp include_trends = none
          ↔ pbp.filter (fun p =>
              p.season == year && decide (p.week < week) && involvesTeam team p) = [])
  ∧ (∀ (team : String) (week year : Int) (pbp : List Play) (include_trends : Bool),
        (∀ p ∈ pbp, involvesTeam team p = true → p.season = year → ¬ p.week < week) →
        get_team_recent_stats team week year pbp include_trends = none) := by
  constructor
  · intro team week year pbp it
    exact get_team_recent_stats_eq_none_iff team week year pbp it
  · intro team week year pbp it hall
    rw [get_team_recent_stats_eq_none_iff]
    unfold current_season_games
    rw [List.filter_eq_nil_iff]
    intro p hp
    simp only [Bool.and_eq_true, beq_iff_eq, decide_eq_true_eq, not_and]
    intro h1 h2
    exact absurd h1.2 (fun hw => (fun hs => (hall p hp h2 hs) hw) h1.1)

/-- Claim C3 counterexample: on `c3Table` the completely absent team "ZZ" and
the team "AA" that only plays at week 5 produce the same null snapshot for a
week-3 query, so the snapshot query has no distinct UnknownTeam outcome; the
distinction only exists in the caller's `available_teams` membership check. -/
theorem unknown_team_same_null_cex :
    get_team_recent_stats "ZZ" 3 2025 c3Table false
      = get_team_recent_stats "AA" 3 2025 c3Table false
  ∧ get_team_recent_stats "ZZ" 3 2025 c3Table false = none
  ∧ "AA" ∈ available_teams c3Table
  ∧ "ZZ" ∉ available_teams c3Table := by
  refine ⟨?_, ?_, ?_, ?_⟩ <;> decide

/-- Claim C3 amended: a team code absent from the table yields the same null
snapshot as a present-but-zero-games team; the UnknownTeam distinction is
made by the caller's `available_teams` membership check, which rejects such a
team before any snapshot is consulted, and no zero-valued snapshot is ever
produced. -/
theorem unknown_team_caught_by_available_teams (team : String) (week year : Int)
    (pbp : List Play) (include_trends : Bool)
    (h : ∀ p ∈ pbp, p.posteam ≠ team ∧ p.defteam ≠ team) :
    team ∉ available_teams pbp
  ∧ get_team_recent_stats team week year pbp include_trends = none := by
  constructor
  · simp only [available_teams, List.mem_dedup, List.mem_append, List.mem_map]
    rintro (⟨p, hp, hpe⟩ | ⟨p, hp, hpe⟩)
    · exact (h p hp).1 hpe
    · exact (h p hp).2 hpe
  · rw [get_team_recent_stats_eq_none_iff]
    unfold current_season_games
    rw [List.filter_eq_nil_iff]
    intro p hp
    simp only [involvesTeam, Bool.and_eq_true, Bool.or_eq_true, beq_iff_eq, not_and]
    intro _ hor
    rcases hor with h3 | h3
    · exact absurd h3 (h p hp).1
    · exact absurd h3 (h p hp).2

/-- Claim C9: every snapshot has `epa_defense = -epa_defense_raw`, and every
Power Rankings entry has `net_epa = epa_offense - epa_defense_raw` and
`epa_defense_display = -epa_defense_raw`. -/
theorem defense_sign_invariant :
    (∀ (team : String) (week year : Int) (pbp : List Play) (include_trends : Bool) (s : TeamStats),
        get_team_recent_stats team week year pbp include_trends = some s →
        s.epa_defense = -s.epa_defense_raw)
  ∧ (∀ (pbp : List Play) (year week : Int) (include_trends : Bool) (team : String)
        (s : TeamRankStats),
        (team, s) ∈ get_all_team_stats pbp year week include_trends →
        s.net_epa = s.epa_offense - s.epa_defense_raw
      ∧ s.epa_defense_display = -s.epa_defense_raw) := by
  constructor
  · intro team week year pbp it s h
    obtain ⟨_, hd, hneg⟩ := get_team_recent_stats_base_fields team week year pbp it s h
    rw [hneg, hd]
  · intro pbp year week it team s h
    simp only [get_all_team_stats, List.mem_filterMap, Option.map_eq_some'] at h
    obtain ⟨t, _, s', hentry, hpair⟩ := h
    injection hpair with h1 h2
    subst h1
    subst h2
    exact get_all_team_stats_entry_fields pbp t year week it s' hentry

/-- Claim C7: trend fields appear only when trends are requested and the
query season is 2025 (and the current window is non-empty, else the whole
result is null); the baseline aggregates the 2022-2024 subset with no week
bound; the trends are `current - historical` (offense) and
`(-current) - (-historical)` (defense); an empty baseline yields the
"unavailable" marker instead of fabricated values. -/
theorem aggregator_trend_fields (team : String) (week year : Int) (pbp : List Play)
    (include_trends : Bool) (s : TeamStats)
    (h : get_team_recent_stats team week year pbp include_trends = some s) :
    (s.trends ≠ TrendInfo.notRequested → include_trends = true ∧ year = 2025)
  ∧ (include_trends = true → year = 2025 → historical_games team pbp = [] →
      s.trends = TrendInfo.unavailable)
  ∧ (include_trends = true → year = 2025 → historical_games team pbp ≠ [] →
      s.trends = TrendInfo.available
        (arithMean (((historical_subset pbp).filter (fun p => p.posteam == team)).map (·.epa)))
        (-arithMean (((historical_subset pbp).filter (fun p => p.defteam == team)).map (·.epa)))
        (s.epa_offense
          - arithMean (((historical_subset pbp).filter (fun p => p.posteam == team)).map (·.epa)))
        ((-s.epa_defense_raw)
          - (-arithMean (((historical_subset pbp).filter (fun p => p.defteam == team)).map (·.epa))))) := by
  simp only [get_team_recent_stats] at h
  split at h
  · exact Option.noConfusion h
  · split at h
    · rename_i hcond
      injection h with h
      subst h
      refine ⟨fun hne => absurd rfl hne, ?_, ?_⟩
      · intro h1 h2 _
        rw [h1, h2] at hcond
        simp at hcond
      · intro h1 h2 _
        rw [h1, h2] at hcond
        simp at hcond
    · split at h
      · rename_i hcond hhist
        injection h with h
        subst h
        refine ⟨fun _ => ?_, fun _ _ he => ?_, fun _ _ _ => ?_⟩
        · constructor
          · by_contra hit
            simp [Bool.not_eq_true] at hit
            simp [hit] at hcond
          · by_contra hyr
            simp [bne_iff_ne, hyr] at hcond
        · rw [he] at hhist
          simp at hhist
        · show TrendInfo.available _ _ _ _ = _
          rw [team_off_plays_historical, team_def_plays_historical,
            guarded_epa_mean_eq_arithMean, guarded_epa_mean_eq_arithMean]
      · rename_i hcond hhist
        injection h with h
        subst h
        refine ⟨fun _ => ?_, fun _ _ _ => rfl, fun _ _ hne => ?_⟩
        · constructor
          · by_contra hit
            simp [Bool.not_eq_true] at hit
            simp [hit] at hcond
          · by_contra hyr
            simp [bne_iff_ne, hyr] at hcond
        · refine absurd (List.length_eq_zero.mp ?_) hne
          omega

/-- Claim C8: the spread evaluator computes `edge = market - predicted`,
picks `side_labels[0]` exactly when the edge is positive (ties go to
`side_labels[1]`, never a no-pick state), and its tier is STRONG at
`|edge| >= 4`, MODERATE at `2 <= |edge| < 4`, NONE below 2; the totals
recommendation reuses exactly the same breakpoints. -/
theorem edge_pick_tier_spec :
    (∀ market predicted : Rat, simple_edge market predicted = market - predicted)
  ∧ (∀ (home away : String) (e : Rat), simple_pick home away e = if e > 0 then home else away)
  ∧ (∀ (market : Rat) (home away : String),
        simple_edge market market = 0
      ∧ simple_pick home away (simple_edge market market) = away)
  ∧ spread_rec_tier = claimTier
  ∧ total_rec_tier = claimTier := by
  have htier : ∀ e : Rat,
      (if |e| ≥ 2 then if |e| ≥ 4 then EdgeTier.STRONG else EdgeTier.MODERATE
        else EdgeTier.NONE) = claimTier e := by
    intro e
    by_cases h4 : (4:Rat) ≤ |e|
    · have h2 : (2:Rat) ≤ |e| := le_trans (by norm_num) h4
      simp [claimTier, h2, h4]
    · by_cases h2 : (2:Rat) ≤ |e|
      · simp [claimTier, h2, h4]
      · simp [claimTier, h2, h4]
  refine ⟨fun _ _ => rfl, fun _ _ _ => rfl, ?_, ?_, ?_⟩
  · intro m home away
    have he : simple_edge m m = 0 := by simp [simple_edge]
    refine ⟨he, ?_⟩
    rw [he]
    simp [simple_pick]
  · funext e
    exact htier e
  · funext e
    exact htier e

lemma pandasSample_length (rng : Nat) (rs : Option Nat) (l : List Play) (n : Nat) :
    (pandasSample rng rs l n).length = min n l.length := by
  unfold pandasSample
  have hk : (rs.getD rng) % (l.length + 1) ≤ l.length := by
    have := Nat.mod_lt (rs.getD rng) (y := l.length + 1) (by omega)
    omega
  simp only [List.length_take, List.length_append, List.length_drop]
  omega

lemma mem_of_mem_pandasSample {rng : Nat} {rs : Option Nat} {l : List Play} {n : Nat}
    {p : Play} (h : p ∈ pandasSample rng rs l n) : p ∈ l := by
  unfold pandasSample at h
  rcases List.mem_append.mp (List.mem_of_mem_take h) with h1 | h1
  · exact List.mem_of_mem_drop h1
  · exact List.mem_of_mem_take h1

lemma count_flatten_replicate (f : Nat) (l : List Play) (p : Play) :
    ((List.replicate f l).flatten).count p = f * l.count p := by
  induction f with
  | zero => simp
  | succ k ih =>
    simp only [List.replicate_succ, List.flatten_cons, List.count_append, ih]
    ring

lemma mem_of_mem_flatten_replicate {f : Nat} {l : List Play} {p : Play}
    (h : p ∈ (List.replicate f l).flatten) : p ∈ l := by
  rcases List.mem_flatten.mp h with ⟨c, hc, hp⟩
  rw [List.eq_of_mem_replicate hc] at hp
  exact hp

lemma pythonInt_of_nonneg {q : Rat} (h : 0 ≤ q) : pythonInt q = ⌊q⌋ := by
  unfold pythonInt
  rw [if_neg (not_lt.mpr h)]

lemma pythonInt_floor_parts (H : Nat) (w : Rat) (hH : 0 < H) (h0 : 0 < w) (h1 : w < 1) :
    (pythonInt ((H : Rat) * w)).toNat ≤ H
  ∧ (pythonInt ((H : Rat) * (1 - w))).toNat ≤ H
  ∧ (pythonInt ((H : Rat) * w)).toNat + (pythonInt ((H : Rat) * (1 - w))).toNat ≤ H
  ∧ ((∃ k : ℤ, (H : Rat) * w = (k : Rat)) →
      (pythonInt ((H : Rat) * w)).toNat + (pythonInt ((H : Rat) * (1 - w))).toNat = H)
  ∧ (¬(∃ k : ℤ, (H : Rat) * w = (k : Rat)) →
      (pythonInt ((H : Rat) * w)).toNat + (pythonInt ((H : Rat) * (1 - w))).toNat = H - 1) := by
  have hHq : (0 : Rat) < (H : Rat) := by exact_mod_cast hH
  have hx0 : (0 : Rat) < (H : Rat) * w := mul_pos hHq h0
  have hxH : (H : Rat) * w < (H : Rat) := mul_lt_of_lt_one_right hHq h1
  have hy : (H : Rat) * (1 - w) = (H : Rat) - (H : Rat) * w := by ring
  have hy0 : (0 : Rat) < (H : Rat) - (H : Rat) * w := by linarith
  have hyH : (H : Rat) - (H : Rat) * w < (H : Rat) := by linarith
  rw [pythonInt_of_nonneg hx0.le, hy, pythonInt_of_nonneg hy0.le]
  have hfx0 : 0 ≤ ⌊(H : Rat) * w⌋ := Int.floor_nonneg.mpr hx0.le
  have hfy0 : 0 ≤ ⌊(H : Rat) - (H : Rat) * w⌋ := Int.floor_nonneg.mpr hy0.le
  have hfxH : ⌊(H : Rat) * w⌋ < (H : ℤ) := Int.floor_lt.mpr (by push_cast; linarith)
  have hfyH : ⌊(H : Rat) - (H : Rat) * w⌋ < (H : ℤ) := Int.floor_lt.mpr (by push_cast; linarith)
  have hsum : ⌊(H : Rat) * w⌋ + ⌊(H : Rat) - (H : Rat) * w⌋ ≤ (H : ℤ) := by
    have l1 : (⌊(H : Rat) * w⌋ : Rat) ≤ (H : Rat) * w := Int.floor_le _
    have l2 : (⌊(H : Rat) - (H : Rat) * w⌋ : Rat) ≤ (H : Rat) - (H : Rat) * w := Int.floor_le _
    have : ((⌊(H : Rat) * w⌋ + ⌊(H : Rat) - (H : Rat) * w⌋ : ℤ) : Rat) ≤ (H : Rat) := by
      push_cast
      linarith
    exact_mod_cast this
  refine ⟨by omega, by omega, by omega, ?_, ?_⟩
  · rintro ⟨k, hk⟩
    have hfk : ⌊(H : Rat) * w⌋ = k := by rw [hk, Int.floor_intCast]
    have hfyk : ⌊(H : Rat) - (H : Rat) * w⌋ = (H : ℤ) - k := by
      rw [hk]
      rw [show (H : Rat) - (k : Rat) = (((H : ℤ) - k : ℤ) : Rat) by push_cast; ring]
      exact Int.floor_intCast _
    rw [hfk, hfyk]
    rw [hfk] at hfx0 hfxH
    omega
  · intro hnk
    have hne : (⌊(H : Rat) * w⌋ : Rat) ≠ (H : Rat) * w := by
      intro he
      exact hnk ⟨⌊(H : Rat) * w⌋, he.symm⟩
    have hlt : (⌊(H : Rat) * w⌋ : Rat) < (H : Rat) * w :=
      lt_of_le_of_ne (Int.floor_le _) hne
    have hfy : ⌊(H : Rat) - (H : Rat) * w⌋ = (H : ℤ) - ⌊(H : Rat) * w⌋ - 1 := by
      rw [Int.floor_eq_iff]
      constructor
      · push_cast
        have := Int.lt_floor_add_one ((H : Rat) * w)
        linarith
      · push_cast
        linarith
    rw [hfy]
    omega

lemma blend_current_empty (rng : Nat) (pbp : List Play) (w : Rat)
    (hc : current_subset pbp = []) :
    create_blended_model_data rng pbp w = historical_subset pbp := by
  simp [create_blended_model_data, hc]

lemma blend_hist_empty (rng : Nat) (pbp : List Play) (w : Rat)
    (hh : historical_subset pbp = []) (hc : current_subset pbp ≠ []) :
    create_blended_model_data rng pbp w = current_subset pbp := by
  have hcF : ((current_subset pbp).length == 0) = false := by
    simp [List.length_eq_zero, hc]
  simp [create_blended_model_data, hcF, hh]

lemma blend_weight_zero (rng : Nat) (pbp : List Play)
    (hh : historical_subset pbp ≠ []) (hc : current_subset pbp ≠ []) :
    create_blended_model_data rng pbp 0 = historical_subset pbp := by
  have hcF : ((current_subset pbp).length == 0) = false := by
    simp [List.length_eq_zero, hc]
  have hhF : ((historical_subset pbp).length == 0) = false := by
    simp [List.length_eq_zero, hh]
  simp [create_blended_model_data, hcF, hhF]

lemma blend_weight_one (rng : Nat) (pbp : List Play)
    (hh : historical_subset pbp ≠ []) (hc : current_subset pbp ≠ []) :
    create_blended_model_data rng pbp 1 = current_subset pbp := by
  have hcF : ((current_subset pbp).length == 0) = false := by
    simp [List.length_eq_zero, hc]
  have hhF : ((historical_subset pbp).length == 0) = false := by
    simp [List.length_eq_zero, hh]
  have hw0 : ((1 : Rat) == 0) = false := by
    rw [beq_eq_false_iff_ne]
    exact one_ne_zero
  simp [create_blended_model_data, hcF, hhF, hw0]

lemma blend_main_branch (rng : Nat) (pbp : List Play) (w : Rat)
    (hh : historical_subset pbp ≠ []) (hc : current_subset pbp ≠ [])
    (h0 : 0 < w) (h1 : w < 1) :
    create_blended_model_data rng pbp w
      = (if (pythonInt (((historical_subset pbp).length : Rat) * (1 - w))).toNat
            > (historical_subset pbp).length
          then historical_subset pbp
          else pandasSample rng (some 42) (historical_subset pbp)
            (pythonInt (((historical_subset pbp).length : Rat) * (1 - w))).toNat)
        ++ (if (pythonInt (((historical_subset pbp).length : Rat) * w)).toNat
              > (current_subset pbp).length
            then
              (if (pythonInt (((historical_subset pbp).length : Rat) * w)).toNat
                    % (current_subset pbp).length > 0
               then (List.replicate
                      ((pythonInt (((historical_subset pbp).length : Rat) * w)).toNat
                        / (current_subset pbp).length) (current_subset pbp)).flatten
                  ++ pandasSample rng (some 42) (current_subset pbp)
                      ((pythonInt (((historical_subset pbp).length : Rat) * w)).toNat
                        % (current_subset pbp).length)
               else (List.replicate
                      ((pythonInt (((historical_subset pbp).length : Rat) * w)).toNat
                        / (current_subset pbp).length) (current_subset pbp)).flatten)
            else pandasSample rng (some 42) (current_subset pbp)
              (pythonInt (((historical_subset pbp).length : Rat) * w)).toNat) := by
  have hcF : ((current_subset pbp).length == 0) = false := by
    simp [List.length_eq_zero, hc]
  have hhF : ((historical_subset pbp).length == 0) = false := by
    simp [List.length_eq_zero, hh]
  have hw0 : (w == 0) = false := by
    rw [beq_eq_false_iff_ne]
    exact h0.ne'
  have hw1 : (w == 1) = false := by
    rw [beq_eq_false_iff_ne]
    exact h1.ne
  simp only [create_blended_model_data, hcF, hhF, hw0, hw1, Bool.false_eq_true, if_false]

lemma blend_shape (rng : Nat) (pbp : List Play) (w : Rat)
    (hh : historical_subset pbp ≠ []) (hc : current_subset pbp ≠ [])
    (h0 : 0 < w) (h1 : w < 1) :
    ∃ hsample csample : List Play,
      create_blended_model_data rng pbp w = hsample ++ csample
      ∧ hsample.length
          = (pythonInt (((historical_subset pbp).length : Rat) * (1 - w))).toNat
      ∧ csample.length
          = (pythonInt (((historical_subset pbp).length : Rat) * w)).toNat
      ∧ (∀ p ∈ hsample, p ∈ historical_subset pbp)
      ∧ (∀ p ∈ csample, p ∈ current_subset pbp)
      ∧ ((pythonInt (((historical_subset pbp).length : Rat) * w)).toNat
            > (current_subset pbp).length →
          ∀ p : Play,
            ((pythonInt (((historical_subset pbp).length : Rat) * w)).toNat
                / (current_subset pbp).length) * (current_subset pbp).count p
              ≤ csample.count p) := by
  have hH : 0 < (historical_subset pbp).length := List.length_pos.mpr hh
  have hC : 0 < (current_subset pbp).length := List.length_pos.mpr hc
  obtain ⟨htcH, hthH, -, -, -⟩ :=
    pythonInt_floor_parts (historical_subset pbp).length w hH h0 h1
  have hmain := blend_main_branch rng pbp w hh hc h0 h1
  rw [if_neg (by omega)] at hmain
  set C := (current_subset pbp).length with hCdef
  set tc := (pythonInt (((historical_subset pbp).length : Rat) * w)).toNat with htc
  set th := (pythonInt (((historical_subset pbp).length : Rat) * (1 - w))).toNat with hth
  have hmm : (tc / C) * C + tc % C = tc := by
    rw [Nat.mul_comm]
    exact Nat.div_add_mod tc C
  by_cases hbig : tc > C
  · rw [if_pos hbig] at hmain
    by_cases hrem : tc % C > 0
    · rw [if_pos hrem] at hmain
      refine ⟨_, _, hmain, ?_, ?_, ?_, ?_, ?_⟩
      · rw [pandasSample_length, min_eq_left hthH]
      · rw [List.length_append, List.length_flatten, List.map_replicate,
          List.sum_replicate, smul_eq_mul, pandasSample_length,
          min_eq_left (Nat.mod_lt tc hC).le]
        exact hmm
      · intro p hp
        exact mem_of_mem_pandasSample hp
      · intro p hp
        rcases List.mem_append.mp hp with h' | h'
        · exact mem_of_mem_flatten_replicate h'
        · exact mem_of_mem_pandasSample h'
      · intro _ p
        rw [List.count_append, count_flatten_replicate]
        exact Nat.le_add_right _ _
    · rw [if_neg hrem] at hmain
      have hr0 : tc % C = 0 := by omega
      refine ⟨_, _, hmain, ?_, ?_, ?_, ?_, ?_⟩
      · rw [pandasSample_length, min_eq_left hthH]
      · rw [List.length_flatten, List.map_replicate, List.sum_replicate, smul_eq_mul]
        have hfin : (tc / C) * C = tc := by omega
        exact hfin
      · intro p hp
        exact mem_of_mem_pandasSample hp
      · intro p hp
        exact mem_of_mem_flatten_replicate hp
      · intro _ p
        rw [count_flatten_replicate]
  · rw [if_neg hbig] at hmain
    refine ⟨_, _, hmain, ?_, ?_, ?_, ?_, ?_⟩
    · rw [pandasSample_length, min_eq_left hthH]
    · rw [pandasSample_length, min_eq_left (by omega : tc ≤ C)]
    · intro p hp
      exact mem_of_mem_pandasSample hp
    · intro p hp
      exact mem_of_mem_pandasSample hp
    · intro hbig2
      exact absurd hbig2 hbig

lemma histSeason_not_current {p : Play} (h : histSeason p = true) :
    (p.season == 2025) = false := by
  simp only [histSeason, Bool.or_eq_true, beq_iff_eq] at h
  rw [beq_eq_false_iff_ne]
  rcases h with (h | h) | h <;> omega

lemma current_not_histSeason {p : Play} (h : (p.season == 2025) = true) :
    histSeason p = false := by
  rw [beq_iff_eq] at h
  simp only [histSeason, Bool.or_eq_false_iff, beq_eq_false_iff_ne, ne_eq]
  omega

/-- Claim C4: with both era subsets non-empty, blend at weight 0 returns the
historical subset unchanged and at weight 1 the current subset unchanged;
when exactly one subset is empty, blend returns the non-empty one regardless
of the weight. -/
theorem blend_endpoints_passthrough (rng : Nat) (pbp : List Play) (w : Rat) :
    (historical_subset pbp ≠ [] → current_subset pbp ≠ [] →
        create_blended_model_data rng pbp 0 = historical_subset pbp
      ∧ create_blended_model_data rng pbp 1 = current_subset pbp)
  ∧ (current_subset pbp = [] → historical_subset pbp ≠ [] →
      create_blended_model_data rng pbp w = historical_subset pbp)
  ∧ (historical_subset pbp = [] → current_subset pbp ≠ [] →
      create_blended_model_data rng pbp w = current_subset pbp) :=
  ⟨fun hh hc => ⟨blend_weight_zero rng pbp hh hc, blend_weight_one rng pbp hh hc⟩,
    fun hc _ => blend_current_empty rng pbp w hc,
    fun hh hc => blend_hist_empty rng pbp w hh hc⟩

/-- Claim C6: the blend result does not depend on the ambient RNG state,
because every sampling call passes the fixed seed 42; two calls with the same
table and weight produce identical row lists. -/
theorem blend_deterministic_fixed_seed (r1 r2 : Nat) (pbp : List Play) (w : Rat) :
    create_blended_model_data r1 pbp w = create_blended_model_data r2 pbp w := rfl

/-- Claim C10: for a proper blend (both subsets non-empty, 0 < w < 1) the
output has exactly `int(H*w) + int(H*(1-w))` rows (H the historical size),
never more than H: exactly H when `H*w` is an integer and `H - 1`
otherwise. -/
theorem blend_output_size (rng : Nat) (pbp : List Play) (w : Rat)
    (hh : historical_subset pbp ≠ []) (hc : current_subset pbp ≠ [])
    (h0 : 0 < w) (h1 : w < 1) :
    (create_blended_model_data rng pbp w).length
        = (pythonInt (((historical_subset pbp).length : Rat) * w)).toNat
          + (pythonInt (((historical_subset pbp).length : Rat) * (1 - w))).toNat
  ∧ (create_blended_model_data rng pbp w).length ≤ (historical_subset pbp).length
  ∧ ((∃ k : ℤ, ((historical_subset pbp).length : Rat) * w = (k : Rat)) →
      (create_blended_model_data rng pbp w).length = (historical_subset pbp).length)
  ∧ (¬(∃ k : ℤ, ((historical_subset pbp).length : Rat) * w = (k : Rat)) →
      (create_blended_model_data rng pbp w).length = (historical_subset pbp).length - 1) := by
  have hH : 0 < (historical_subset pbp).length := List.length_pos.mpr hh
  obtain ⟨htcH, hthH, hsum, hint, hnint⟩ :=
    pythonInt_floor_parts (historical_subset pbp).length w hH h0 h1
  obtain ⟨hs, cs, heq, hlh, hlc, -, -, -⟩ := blend_shape rng pbp w hh hc h0 h1
  rw [heq, List.length_append, hlh, hlc]
  refine ⟨by omega, by omega, fun hk => ?_, fun hk => ?_⟩
  · have := hint hk
    omega
  · have := hnint hk
    omega

/-- Claim C5 amended (`round` corrected to Python `int`, i.e. truncation):
blend's target sizes are `int(H*w)` and `int(H*(1-w))`; the output has
exactly `int(H*w)` current-season rows, and in the up-sampling case every
current row appears at least `int(H*w) / |current|` times its multiplicity. -/
theorem blend_truncated_targets_upsample (rng : Nat) (pbp : List Play) (w : Rat)
    (hh : historical_subset pbp ≠ []) (hc : current_subset pbp ≠ [])
    (h0 : 0 < w) (h1 : w < 1) :
    (create_blended_model_data rng pbp w).countP (fun p => p.season == 2025)
        = (pythonInt (((historical_subset pbp).length : Rat) * w)).toNat
  ∧ (create_blended_model_data rng pbp w).countP histSeason
        = (pythonInt (((historical_subset pbp).length : Rat) * (1 - w))).toNat
  ∧ ((pythonInt (((historical_subset pbp).length : Rat) * w)).toNat
        > (current_subset pbp).length →
      ∀ p : Play,
        ((pythonInt (((historical_subset pbp).length : Rat) * w)).toNat
            / (current_subset pbp).length) * (current_subset pbp).count p
          ≤ (create_blended_model_data rng pbp w).count p) := by
  obtain ⟨hs, cs, heq, hlh, hlc, hmemh, hmemc, hcount⟩ := blend_shape rng pbp w hh hc h0 h1
  rw [heq]
  refine ⟨?_, ?_, ?_⟩
  · rw [List.countP_append]
    have hz : hs.countP (fun p => p.season == 2025) = 0 :=
      List.countP_eq_zero.mpr (fun p hp => by
        simp [histSeason_not_current (List.mem_filter.mp (hmemh p hp)).2])
    have hful : cs.countP (fun p => p.season == 2025) = cs.length :=
      List.countP_eq_length.mpr (fun p hp => (List.mem_filter.mp (hmemc p hp)).2)
    rw [hz, hful, hlc, Nat.zero_add]
  · rw [List.countP_append]
    have hful : hs.countP histSeason = hs.length :=
      List.countP_eq_length.mpr (fun p hp => (List.mem_filter.mp (hmemh p hp)).2)
    have hz : cs.countP histSeason = 0 :=
      List.countP_eq_zero.mpr (fun p hp => by
        simp [current_not_histSeason (List.mem_filter.mp (hmemc p hp)).2])
    rw [hz, hful, hlh, Nat.add_zero]
  · intro hbig p
    rw [List.count_append]
    have := hcount hbig p
    omega

/-- Claim C5 counterexample: on `c5Table` (3 historical rows, 1 current row)
at weight 1/2 the code's `int(3 * 0.5) = 1` disagrees with the claimed
`round(3 * 0.5) = 2`: the blend output contains exactly 1 current-season row,
not 2. -/
theorem blend_target_round_cex :
    (create_blended_model_data 0 c5Table (1/2)).countP (fun p => p.season == 2025) = 1
  ∧ (pythonRound (((historical_subset c5Table).length : Rat) * (1/2))).toNat = 2
  ∧ (create_blended_model_data 0 c5Table (1/2)).countP (fun p => p.season == 2025)
      ≠ (pythonRound (((historical_subset c5Table).length : Rat) * (1/2))).toNat := by
  have h1 : (create_blended_model_data 0 c5Table (1/2)).countP (fun p => p.season == 2025) = 1 := by
    norm_num [create_blended_model_data, historical_subset, current_subset, c5Table,
      histSeason, pythonInt, pandasSample, List.countP_cons, Int.floor_eq_iff]
  have h2 : (pythonRound (((historical_subset c5Table).length : Rat) * (1/2))).toNat = 2 := by
    have hlen : (historical_subset c5Table).length = 3 := by decide
    rw [hlen]
    norm_num [pythonRound, Int.floor_eq_iff]
    decide
  exact ⟨h1, h2, by rw [h1, h2]; omega⟩

theorem aggregator_mean_locality_witness :
    get_team_recent_stats "KC" 3 2025 demoTable false = some demoStats
  ∧ demoStats.epa_offense
      = arithMean (((seasonWindow 3 2025 demoTable).filter
          (fun p => p.posteam == "KC")).map (·.epa))
  ∧ demoStats.epa_defense_raw
      = arithMean (((seasonWindow 3 2025 demoTable).filter
          (fun p => p.defteam == "KC")).map (·.epa)) := by
  have h : get_team_recent_stats "KC" 3 2025 demoTable false = some demoStats := by
    simp [get_team_recent_stats, current_season_games, demoTable, involvesTeam,
      base_stats, team_off_plays, team_def_plays, guarded_epa_mean, seriesMean,
      distinct_game_count, demoStats, List.filter_cons, List.filter_nil,
      List.dedup_cons_of_mem, List.dedup_cons_of_not_mem, TeamStats.mk.injEq]
    norm_num
  have hm := aggregator_offense_defense_mean_locality "KC" 3 2025 demoTable false demoStats h
  exact ⟨h, hm.1, hm.2.1⟩

theorem aggregator_null_iff_empty_filter_witness :
    get_team_recent_stats "AA" 3 2025 c3Table false = none :=
  aggregator_null_iff_empty_filter.2 "AA" 3 2025 c3Table false (by decide)

theorem unknown_team_caught_witness :
    "ZZ" ∉ available_teams c3Table
  ∧ get_team_recent_stats "ZZ" 3 2025 c3Table false = none :=
  unknown_team_caught_by_available_teams "ZZ" 3 2025 c3Table false (by decide)

theorem blend_endpoints_passthrough_witness :
    create_blended_model_data 0 c10Table 0 = historical_subset c10Table
  ∧ create_blended_model_data 0 c10Table 1 = current_subset c10Table
  ∧ create_blended_model_data 0 historyOnlyTable (1/2) = historical_subset historyOnlyTable
  ∧ create_blended_model_data 0 currentOnlyTable (1/2) = current_subset currentOnlyTable :=
  ⟨((blend_endpoints_passthrough 0 c10Table (1/2)).1 (by decide) (by decide)).1,
    ((blend_endpoints_passthrough 0 c10Table (1/2)).1 (by decide) (by decide)).2,
    (blend_endpoints_passthrough 0 historyOnlyTable (1/2)).2.1 (by decide) (by decide),
    (blend_endpoints_passthrough 0 currentOnlyTable (1/2)).2.2 (by decide) (by decide)⟩

theorem blend_truncated_targets_witness :
    (create_blended_model_data 0 c5UpTable (2/3)).countP (fun p => p.season == 2025)
      = (pythonInt (((historical_subset c5UpTable).length : Rat) * (2/3))).toNat :=
  (blend_truncated_targets_upsample 0 c5UpTable (2/3) (by decide) (by decide)
    (by norm_num) (by norm_num)).1

theorem blend_output_size_witness :
    (create_blended_model_data 0 c10Table (1/2)).length
      = (historical_subset c10Table).length := by
  have hlen : (historical_subset c10Table).length = 4 := by decide
  refine (blend_output_size 0 c10Table (1/2) (by decide) (by decide)
    (by norm_num) (by norm_num)).2.2.1 ⟨2, ?_⟩
  rw [hlen]
  norm_num

theorem aggregator_trend_fields_witness :
    get_team_recent_stats "KC" 3 2025 demoTable true = some demoStatsT
  ∧ demoStatsT.trends = TrendInfo.available
      (arithMean (((historical_subset demoTable).filter
        (fun p => p.posteam == "KC")).map (·.epa)))
      (-arithMean (((historical_subset demoTable).filter
        (fun p => p.defteam == "KC")).map (·.epa)))
      (demoStatsT.epa_offense - arithMean (((historical_subset demoTable).filter
        (fun p => p.posteam == "KC")).map (·.epa)))
      ((-demoStatsT.epa_defense_raw) - (-arithMean (((historical_subset demoTable).filter
        (fun p => p.defteam == "KC")).map (·.epa)))) := by
  have h : get_team_recent_stats "KC" 3 2025 demoTable true = some demoStatsT := by
    simp [get_team_recent_stats, current_season_games, demoTable, involvesTeam,
      base_stats, team_off_plays, team_def_plays, guarded_epa_mean, seriesMean,
      distinct_game_count, demoStatsT, historical_games, histSeason,
      List.filter_cons, List.filter_nil,
      List.dedup_cons_of_mem, List.dedup_cons_of_not_mem, TeamStats.mk.injEq]
    norm_num
  exact ⟨h, (aggregator_trend_fields "KC" 3 2025 demoTable true demoStatsT h).2.2
    rfl rfl (by decide)⟩

theorem defense_sign_invariant_witness :
    demoStats.epa_defense = -demoStats.epa_defense_raw
  ∧ demoRankKC.net_epa = demoRankKC.epa_offense - demoRankKC.epa_defense_raw
  ∧ demoRankKC.epa_defense_display = -demoRankKC.epa_defense_raw := by
  have h1 : get_team_recent_stats "KC" 3 2025 demoTable false = some demoStats := by
    simp [get_team_recent_stats, current_season_games, demoTable, involvesTeam,
      base_stats, team_off_plays, team_def_plays, guarded_epa_mean, seriesMean,
      distinct_game_count, demoStats, List.filter_cons, List.filter_nil,
      List.dedup_cons_of_mem, List.dedup_cons_of_not_mem, TeamStats.mk.injEq]
    norm_num
  have hent : get_all_team_stats_entry demoTable "KC" 2025 3 true = some demoRankKC := by
    simp [get_all_team_stats_entry, current_season_games, demoTable, involvesTeam,
      team_off_plays, team_def_plays, guarded_epa_mean, seriesMean,
      distinct_game_count, demoRankKC, historical_games, histSeason,
      List.filter_cons, List.filter_nil,
      List.dedup_cons_of_mem, List.dedup_cons_of_not_mem, TeamRankStats.mk.injEq]
    norm_num
  have h2 : ("KC", demoRankKC) ∈ get_all_team_stats demoTable 2025 3 true := by
    unfold get_all_team_stats
    refine List.mem_filterMap.mpr ⟨"KC", by decide, ?_⟩
    rw [hent]
    rfl
  obtain ⟨ha, hb⟩ := defense_sign_invariant.2 demoTable 2025 3 true "KC" demoRankKC h2
  exact ⟨defense_sign_invariant.1 "KC" 3 2025 demoTable false demoStats h1, ha, hb⟩

end NFLMatchup
